import Mathlib

/-!
# Verification of the Termina clock core (`clock.py`)

Shallow embedding of the time-mapping engine (`get_termina_state`), the cue
state machine inside `update_clock`, and the settings-save parsing logic
(`save_settings`).  Python floats are modelled as exact rationals (`ℚ`);
Python `int(x)` truncation toward zero is `pyInt`; the rendered label text is
modelled as a structured `Display` value (string formatting is abstracted,
the rendered fields are kept exactly).  Audio side effects (`play_sound`,
`stop_sound`) are modelled as emitted commands: `play_sound(file, muted)` is
the command `AudioCmd.start track muted` (the function is called even when
muted; muting suppresses only the playback inside it), `stop_sound()` is
`AudioCmd.stop`.
-/

/-- Python `int(x)` truncates toward zero. -/
def pyInt (q : ℚ) : ℤ := if q < 0 then ⌈q⌉ else ⌊q⌋

/-- `TERMINA_HOURS_PER_DAY = 24` from clock.py. -/
def TERMINA_HOURS_PER_DAY : ℚ := 24

/-- `TERMINA_TOTAL_HOURS = 72` from clock.py. -/
def TERMINA_TOTAL_HOURS : ℚ := 72

/-- `REAL_SECONDS_72MIN = 72 * 60` from clock.py. -/
def REAL_SECONDS_72MIN : ℚ := 72 * 60

/-- `REAL_SECONDS_24HR = 24 * 60 * 60` from clock.py. -/
def REAL_SECONDS_24HR : ℚ := 24 * 60 * 60

/-- The two cycle modes, `"72min"` and `"24hr"`. -/
inductive CycleMode
  | mode72min
  | mode24hr
  deriving DecidableEq

/-- `get_cycle_length_seconds()` from clock.py. -/
def get_cycle_length_seconds : CycleMode → ℚ
  | CycleMode.mode72min => REAL_SECONDS_72MIN
  | CycleMode.mode24hr => REAL_SECONDS_24HR

/-- The 4-tuple returned by `get_termina_state()`. -/
structure TerminaState where
  day : ℤ
  hour : ℚ
  total_hours : ℚ
  seconds_remaining : ℚ
  deriving DecidableEq

/-- The progress computation inside `get_termina_state()` (clock.py lines
168-175): `1.0` when the cycle length is non-positive, otherwise
`1 - seconds_remaining / cycle_real_seconds` clamped into `[0, 1]`. -/
def cycleProgress (seconds_remaining cycle_real_seconds : ℚ) : ℚ :=
  if cycle_real_seconds ≤ 0 then 1
  else
    let p := 1 - seconds_remaining / cycle_real_seconds
    if p < 0 then 0 else if 1 < p then 1 else p

/-- `get_termina_state()` from clock.py (lines 147-187), with the implicit
inputs (`time.time()`, `debug_time_offset`, `epoch_end_timestamp`, the cycle
length) made explicit parameters. -/
def get_termina_state (now epoch_end cycle_real_seconds debug_time_offset : ℚ) :
    TerminaState :=
  let adjustedNow := now + debug_time_offset
  let sr0 := epoch_end - adjustedNow
  let seconds_remaining := if sr0 < 0 then 0 else sr0
  let progress := cycleProgress seconds_remaining cycle_real_seconds
  let total_hours := progress * TERMINA_TOTAL_HOURS
  let day0 : ℤ := ⌊total_hours / TERMINA_HOURS_PER_DAY⌋ + 1
  let day := if 3 < day0 then 3 else day0
  let hour := total_hours - TERMINA_HOURS_PER_DAY * (⌊total_hours / TERMINA_HOURS_PER_DAY⌋ : ℚ)
  { day := day, hour := hour, total_hours := total_hours,
    seconds_remaining := seconds_remaining }

/-- The three audio tracks `hour.mp3`, `final.mp3`, `bells.mp3`. -/
inductive Track
  | hourTrack
  | finalTrack
  | bellsTrack
  deriving DecidableEq

/-- An audio command: `play_sound(file, muted)` or `stop_sound()`. -/
inductive AudioCmd
  | start (track : Track) (muted : Bool)
  | stop
  deriving DecidableEq

/-- The mutable globals `last_hour_int`, `final_music_playing`,
`bells_playing` that persist across ticks (clock.py lines 396-398). -/
structure CueState where
  last_hour_int : ℤ
  final_music_playing : Bool
  bells_playing : Bool
  deriving DecidableEq

/-- Their initial values at startup. -/
def initCueState : CueState :=
  { last_hour_int := -1, final_music_playing := false, bells_playing := false }

/-- The text rendered to the label, structured: the final-countdown text
(whole seconds and milliseconds), the normal day/hour text (with optional
seconds-within-hour), or the end-of-cycle marker `DAWN OF A NEW DAY`.
Each carries the optional debug suffix (offset shown, and the remaining
seconds when positive). -/
inductive Display
  | finalCountdownText (whole_sec ms : ℤ) (debug : Option (ℚ × Option ℚ))
  | normalText (day hour_int : ℤ) (display_seconds : Option ℤ)
      (debug : Option (ℚ × Option ℚ))
  | dawnOfANewDay (debug : Option (ℚ × Option ℚ))
  deriving DecidableEq

/-- The configuration globals read by `update_clock`. -/
structure Config where
  mute_hour : Bool
  mute_final : Bool
  show_seconds : Bool
  debug_mode : Bool
  deriving DecidableEq

/-- What one call of `update_clock` produces: the audio commands in emission
order, the final label text, and the new values of the mutable cue globals. -/
structure TickResult where
  commands : List AudioCmd
  display : Display
  state : CueState
  deriving DecidableEq

/-- One call of `update_clock()` (clock.py lines 400-484), with the
`get_termina_state()` result passed in as `st`.  Mirrors the source order:
the FINAL NIGHT block, then the FINAL COUNTDOWN block with its `else`
(day/night chime + normal display), then the RESET block. -/
def update_clock (cfg : Config) (debug_time_offset : ℚ) (st : TerminaState)
    (c : CueState) : TickResult :=
  let hour_int : ℤ := pyInt st.hour
  let dbg : Option (ℚ × Option ℚ) :=
    if cfg.debug_mode then
      some (debug_time_offset,
        if 0 < st.seconds_remaining then some st.seconds_remaining else none)
    else none
  -- FINAL NIGHT MUSIC (final.mp3): day 3, 18:00 onwards, not in last 5 min
  let fn : List AudioCmd × Bool × Bool :=
    if 300 < st.seconds_remaining then
      if st.day = 3 ∧ 18 ≤ st.hour ∧ c.final_music_playing = false then
        ([AudioCmd.stop, AudioCmd.start Track.finalTrack cfg.mute_final],
          true, false)
      else ([], c.final_music_playing, c.bells_playing)
    else ([], false, c.bells_playing)
  let cmdsA := fn.1
  let finalA := fn.2.1
  let bellsA := fn.2.2
  -- FINAL COUNTDOWN (last 5 real minutes) / else: chime + normal display
  let fc : List AudioCmd × Bool × ℤ × Display :=
    if 0 < st.seconds_remaining ∧ st.seconds_remaining ≤ 300 then
      let entryCmds :=
        if bellsA = false then
          [AudioCmd.stop, AudioCmd.start Track.bellsTrack cfg.mute_final]
        else []
      let whole_sec := pyInt st.seconds_remaining
      let ms := pyInt ((st.seconds_remaining - (whole_sec : ℚ)) * 1000)
      (entryCmds, true, c.last_hour_int, Display.finalCountdownText whole_sec ms dbg)
    else
      let chimeCmds :=
        if hour_int ≠ c.last_hour_int ∧ (hour_int = 6 ∨ hour_int = 18) then
          [AudioCmd.start Track.hourTrack cfg.mute_hour]
        else []
      let disp :=
        if cfg.show_seconds then
          Display.normalText st.day hour_int
            (some (pyInt ((st.hour - (⌊st.hour⌋ : ℚ)) * 60))) dbg
        else Display.normalText st.day hour_int none dbg
      (chimeCmds, false, hour_int, disp)
  let cmdsB := fc.1
  let bellsB := fc.2.1
  let lastB := fc.2.2.1
  let dispB := fc.2.2.2
  -- RESET EVENT (cycle ended)
  if st.seconds_remaining ≤ 0 then
    { commands := cmdsA ++ cmdsB ++ [AudioCmd.stop]
      display := Display.dawnOfANewDay dbg
      state := { last_hour_int := lastB, final_music_playing := false,
                 bells_playing := false } }
  else
    { commands := cmdsA ++ cmdsB
      display := dispB
      state := { last_hour_int := lastB, final_music_playing := finalA,
                 bells_playing := bellsB } }

/-- Iterate `update_clock` over a list of successive `TerminaState`s,
threading the mutable cue globals, and collect each tick's result. -/
def tickRun (cfg : Config) (debug_time_offset : ℚ) :
    CueState → List TerminaState → List TickResult
  | _, [] => []
  | c, st :: rest =>
    let r := update_clock cfg debug_time_offset st c
    r :: tickRun cfg debug_time_offset r.state rest

/-- Whether a command is a `play_sound` of the given track. -/
def isStartOf (t : Track) : AudioCmd → Bool
  | AudioCmd.start t2 _ => t2 == t
  | AudioCmd.stop => false

/-- How many `play_sound` commands of the given track a command list holds. -/
def countStart (t : Track) (cmds : List AudioCmd) : ℕ :=
  (cmds.filter (isStartOf t)).length

/-- All commands of a run of ticks, in emission order. -/
def runCommands (rs : List TickResult) : List AudioCmd :=
  (rs.map TickResult.commands).flatten

/-- Forget the mute argument of a command, keeping which track is started:
the observable cue structure that `play_sound`'s early-return on `muted`
cannot change. -/
def stripMute : AudioCmd → AudioCmd
  | AudioCmd.start t _ => AudioCmd.start t false
  | AudioCmd.stop => AudioCmd.stop

/-- Whether a tick emitted a `play_sound` of the given track. -/
def emitsStart (t : Track) (r : TickResult) : Prop :=
  r.commands.any (isStartOf t) = true

instance (t : Track) (r : TickResult) : Decidable (emitsStart t r) := by
  unfold emitsStart; infer_instance

/-- The final-countdown window `0 < seconds_remaining ≤ 300`. -/
def inWindow (st : TerminaState) : Prop :=
  0 < st.seconds_remaining ∧ st.seconds_remaining ≤ 300

instance (st : TerminaState) : Decidable (inWindow st) := by
  unfold inWindow; infer_instance

/-- Cue-state condition 1, Reset: `seconds_remaining ≤ 0`. -/
def isResetPhase (st : TerminaState) : Prop := st.seconds_remaining ≤ 0

/-- Cue-state condition 2, FinalCountdown: `0 < seconds_remaining ≤ 300`. -/
def isFinalCountdownPhase (st : TerminaState) : Prop := inWindow st

/-- Cue-state condition 3, FinalNight:
`seconds_remaining > 300 ∧ day = 3 ∧ hour ≥ 18`. -/
def isFinalNightPhase (st : TerminaState) : Prop :=
  300 < st.seconds_remaining ∧ st.day = 3 ∧ 18 ≤ st.hour

/-- Cue-state condition 4, Normal: none of the other three. -/
def isNormalPhase (st : TerminaState) : Prop :=
  ¬ isResetPhase st ∧ ¬ isFinalCountdownPhase st ∧ ¬ isFinalNightPhase st

instance (st : TerminaState) : Decidable (isResetPhase st) := by
  unfold isResetPhase; infer_instance

instance (st : TerminaState) : Decidable (isFinalCountdownPhase st) := by
  unfold isFinalCountdownPhase; infer_instance

instance (st : TerminaState) : Decidable (isFinalNightPhase st) := by
  unfold isFinalNightPhase; infer_instance

instance (st : TerminaState) : Decidable (isNormalPhase st) := by
  unfold isNormalPhase; infer_instance

/-- A `TerminaState` the running program can feed into `update_clock`: the
value of `get_termina_state()` at some real time, epoch anchor, debug offset
and cycle mode (the cycle length always comes from
`get_cycle_length_seconds()`). -/
def reachableState (st : TerminaState) : Prop :=
  ∃ (now epoch_end debug_time_offset : ℚ) (mode : CycleMode),
    st = get_termina_state now epoch_end (get_cycle_length_seconds mode)
      debug_time_offset

/-- Division that fails (like a Python `ZeroDivisionError`) on a zero
divisor, used to state that `get_termina_state` never divides by zero. -/
def checkedDiv (a b : ℚ) : Option ℚ := if b = 0 then none else some (a / b)

/-- `cycleProgress` with the division routed through `checkedDiv`. -/
def cycleProgressChecked (seconds_remaining cycle_real_seconds : ℚ) : Option ℚ :=
  if cycle_real_seconds ≤ 0 then some 1
  else
    (checkedDiv seconds_remaining cycle_real_seconds).map fun q =>
      let p := 1 - q
      if p < 0 then 0 else if 1 < p then 1 else p

/-- `get_termina_state` with its only fallible operation (the division in
the progress computation) routed through `checkedDiv`. -/
def get_termina_state_checked (now epoch_end cycle_real_seconds
    debug_time_offset : ℚ) : Option TerminaState :=
  let adjustedNow := now + debug_time_offset
  let sr0 := epoch_end - adjustedNow
  let seconds_remaining := if sr0 < 0 then 0 else sr0
  (cycleProgressChecked seconds_remaining cycle_real_seconds).map fun progress =>
    let total_hours := progress * TERMINA_TOTAL_HOURS
    let day0 : ℤ := ⌊total_hours / TERMINA_HOURS_PER_DAY⌋ + 1
    let day := if 3 < day0 then 3 else day0
    let hour := total_hours - TERMINA_HOURS_PER_DAY * (⌊total_hours / TERMINA_HOURS_PER_DAY⌋ : ℚ)
    { day := day, hour := hour, total_hours := total_hours,
      seconds_remaining := seconds_remaining }

/-- Python `str.strip()` on a character list: drop whitespace on both ends. -/
def pyStrip (cs : List Char) : List Char :=
  ((cs.dropWhile Char.isWhitespace).reverse.dropWhile Char.isWhitespace).reverse

/-- Python `str.split(sep)`: split at every separator, keeping empty parts. -/
def splitOnChar (sep : Char) : List Char → List (List Char)
  | [] => [[]]
  | c :: rest =>
    let r := splitOnChar sep rest
    if c = sep then [] :: r
    else
      match r with
      | [] => [[c]]
      | g :: gs => (c :: g) :: gs

/-- Value of a digit run, most significant first. -/
def digitsVal (cs : List Char) : ℕ :=
  cs.foldl (fun acc c => 10 * acc + (c.toNat - 48)) 0

/-- Python `int(s)` on a string: strip whitespace, optional sign, then a
nonempty digit run.  (Modelled core of the builtin; digit-group underscores
and non-ASCII digits are not modelled.) -/
def parsePyIntChars (cs0 : List Char) : Option ℤ :=
  let cs := pyStrip cs0
  match cs with
  | [] => none
  | c :: rest =>
    if c = '+' then
      if rest ≠ [] ∧ rest.all Char.isDigit then some (digitsVal rest) else none
    else if c = '-' then
      if rest ≠ [] ∧ rest.all Char.isDigit then some (-(digitsVal rest : ℤ))
      else none
    else if cs.all Char.isDigit then some (digitsVal cs) else none

/-- Python `float(s)` on a string: strip whitespace, optional sign, then
`digits`, `digits.digits`, `digits.` or `.digits`.  (Modelled core of the
builtin; exponents, `inf` and `nan` are not modelled.) -/
def parsePyFloatChars (cs0 : List Char) : Option ℚ :=
  let cs := pyStrip cs0
  let core : List Char → Option ℚ := fun u =>
    match splitOnChar '.' u with
    | [a] =>
      if a ≠ [] ∧ a.all Char.isDigit then some ((digitsVal a : ℚ)) else none
    | [a, b] =>
      if (a ≠ [] ∨ b ≠ []) ∧ a.all Char.isDigit ∧ b.all Char.isDigit then
        some ((digitsVal a : ℚ) + (digitsVal b : ℚ) / (10 : ℚ) ^ b.length)
      else none
    | _ => none
  match cs with
  | [] => none
  | c :: rest =>
    if c = '+' then core rest
    else if c = '-' then (core rest).map Neg.neg
    else core cs

/-- The epoch-time field parse in `save_settings` (clock.py lines 339-350):
split `HH:MM` on `:` into exactly two `int`s (or a lone `int` with minutes
0), then require `0 ≤ hh ≤ 23` and `0 ≤ mm ≤ 59`.  `none` models every path
that raises `ValueError` (including the range check and a wrong number of
`:`-separated parts). -/
def parseTimeOfDay (t : String) : Option (ℤ × ℤ) :=
  let raw : Option (ℤ × ℤ) :=
    if t.toList.contains ':' then
      match splitOnChar ':' t.toList with
      | [a, b] => do
        let hh ← parsePyIntChars a
        let mm ← parsePyIntChars b
        pure (hh, mm)
      | _ => none
    else (parsePyIntChars t.toList).map fun hh => (hh, 0)
  raw.bind fun hm =>
    if 0 ≤ hm.1 ∧ hm.1 ≤ 23 ∧ 0 ≤ hm.2 ∧ hm.2 ≤ 59 then some hm else none

/-- The configuration globals written by `save_settings`. -/
structure Settings where
  cycle_mode : CycleMode
  mute_hour : Bool
  mute_final : Bool
  debug_mode : Bool
  show_seconds : Bool
  dark_mode : Bool
  epoch_end_timestamp : ℚ
  debug_time_offset : ℚ
  deriving DecidableEq

/-- The widget values read inside `save_settings`. -/
structure FormValues where
  hour_var : Bool
  final_var : Bool
  debug_var : Bool
  seconds_var : Bool
  dark_var : Bool
  cycle_var : CycleMode
  epoch_entry : String
  debug_offset_entry : String
  deriving DecidableEq

/-- What `save_settings` prints / does observably besides mutating the
configuration globals. -/
inductive LogEvent
  | epochParseError (t : String)
  | offsetParseError (t : String)
  | epochSet (ts : ℚ)
  | offsetSet (seconds : ℚ)
  deriving DecidableEq

/-- `target_day3_end` computation (clock.py lines 352-358):
`datetime.now().replace(hour=hh, minute=mm, second=0, microsecond=0)` is
today's midnight plus `3600*hh + 60*mm`; if that instant has already
passed, add one day. -/
def epochTarget (now_ts midnight_ts : ℚ) (hh mm : ℤ) : ℚ :=
  let target := midnight_ts + 3600 * (hh : ℚ) + 60 * (mm : ℚ)
  if target ≤ now_ts then target + 86400 else target

/-- The epoch-field block of `save_settings` (clock.py lines 339-371):
empty field skipped, parse failure reported with configuration unchanged,
success calls `set_epoch_end`. -/
def applyEpochField (t : String) (now_ts midnight_ts : ℚ) (s : Settings) :
    Settings × List LogEvent :=
  if t = "" then (s, [])
  else
    match parseTimeOfDay t with
    | some hm =>
      let ts := epochTarget now_ts midnight_ts hm.1 hm.2
      ({ s with epoch_end_timestamp := ts }, [LogEvent.epochSet ts])
    | none => (s, [LogEvent.epochParseError t])

/-- The debug-offset block of `save_settings` (clock.py lines 373-381). -/
def applyOffsetField (u : String) (s : Settings) : Settings × List LogEvent :=
  if u = "" then (s, [])
  else
    match parsePyFloatChars u.toList with
    | some q => ({ s with debug_time_offset := q }, [LogEvent.offsetSet q])
    | none => (s, [LogEvent.offsetParseError u])

/-- `save_settings()` from clock.py (lines 321-383): copy the widget
booleans and cycle mode, then process the epoch-time field, then the
debug-offset field (each in its own try/except). -/
def save_settings (form : FormValues) (now_ts midnight_ts : ℚ) (s : Settings) :
    Settings × List LogEvent :=
  let s1 : Settings :=
    { s with
      mute_hour := form.hour_var
      mute_final := form.final_var
      debug_mode := form.debug_var
      show_seconds := form.seconds_var
      dark_mode := form.dark_var
      cycle_mode := form.cycle_var }
  let r2 := applyEpochField (String.mk (pyStrip form.epoch_entry.toList))
    now_ts midnight_ts s1
  let r3 := applyOffsetField (String.mk (pyStrip form.debug_offset_entry.toList)) r2.1
  (r3.1, r2.2 ++ r3.2)

-- sanity checks of the embedding on concrete inputs (mirrors the spec's
-- ShortCycle scenario numbers)
example : (get_termina_state 0 4320 4320 0).day = 1 := by
  norm_num [get_termina_state, cycleProgress, TERMINA_TOTAL_HOURS,
    TERMINA_HOURS_PER_DAY, Rat.floor_def]
example : (get_termina_state 2160 4320 4320 0) =
    { day := 2, hour := 12, total_hours := 36, seconds_remaining := 2160 } := by
  norm_num [get_termina_state, cycleProgress, TERMINA_TOTAL_HOURS,
    TERMINA_HOURS_PER_DAY, Rat.floor_def]
example : (get_termina_state 4070 4320 4320 0).seconds_remaining = 250 := by
  norm_num [get_termina_state, cycleProgress]
example : (get_termina_state 4320 4320 4320 0).hour = 0 := by
  norm_num [get_termina_state, cycleProgress, TERMINA_TOTAL_HOURS,
    TERMINA_HOURS_PER_DAY, Rat.floor_def]
example :
    (update_clock ⟨false, false, false, false⟩ 0 (get_termina_state 4070 4320 4320 0)
      initCueState).commands =
    [AudioCmd.stop, AudioCmd.start Track.bellsTrack false] := by
  norm_num [get_termina_state, cycleProgress, update_clock, pyInt, initCueState,
    TERMINA_TOTAL_HOURS, TERMINA_HOURS_PER_DAY, Rat.floor_def]

/-! ## Basic facts about `get_termina_state` -/

lemma get_termina_state_sr_eq (now epoch_end L off : ℚ) :
    (get_termina_state now epoch_end L off).seconds_remaining =
      if epoch_end - (now + off) < 0 then 0 else epoch_end - (now + off) := rfl

lemma get_termina_state_total_eq (now epoch_end L off : ℚ) :
    (get_termina_state now epoch_end L off).total_hours =
      cycleProgress ((get_termina_state now epoch_end L off).seconds_remaining) L * 72 := rfl

lemma get_termina_state_hour_eq (now epoch_end L off : ℚ) :
    (get_termina_state now epoch_end L off).hour =
      (get_termina_state now epoch_end L off).total_hours -
        24 * (⌊(get_termina_state now epoch_end L off).total_hours / 24⌋ : ℚ) := rfl

lemma get_termina_state_day_eq (now epoch_end L off : ℚ) :
    (get_termina_state now epoch_end L off).day =
      if 3 < ⌊(get_termina_state now epoch_end L off).total_hours / 24⌋ + 1 then 3
      else ⌊(get_termina_state now epoch_end L off).total_hours / 24⌋ + 1 := rfl

lemma cycleProgress_nonneg (sr L : ℚ) : 0 ≤ cycleProgress sr L := by
  unfold cycleProgress
  by_cases hL : L ≤ 0
  · simp [hL]
  · simp only [if_neg hL]
    split_ifs <;> linarith

lemma cycleProgress_le_one (sr L : ℚ) : cycleProgress sr L ≤ 1 := by
  unfold cycleProgress
  by_cases hL : L ≤ 0
  · simp [hL]
  · simp only [if_neg hL]
    split_ifs <;> linarith

lemma cycleProgress_anti {L sr1 sr2 : ℚ} (h : sr2 ≤ sr1) :
    cycleProgress sr1 L ≤ cycleProgress sr2 L := by
  unfold cycleProgress
  by_cases hL : L ≤ 0
  · simp [hL]
  · push_neg at hL
    have hd : sr2 / L ≤ sr1 / L := by gcongr
    simp only [if_neg (not_le.mpr hL)]
    split_ifs <;> linarith

lemma get_termina_state_sr_nonneg (now epoch_end L off : ℚ) :
    0 ≤ (get_termina_state now epoch_end L off).seconds_remaining := by
  rw [get_termina_state_sr_eq]
  split_ifs with h
  · linarith
  · linarith [not_lt.mp h]

lemma get_termina_state_total_bounds (now epoch_end L off : ℚ) :
    0 ≤ (get_termina_state now epoch_end L off).total_hours ∧
      (get_termina_state now epoch_end L off).total_hours ≤ 72 := by
  rw [get_termina_state_total_eq]
  constructor
  · nlinarith [cycleProgress_nonneg ((get_termina_state now epoch_end L off).seconds_remaining) L]
  · nlinarith [cycleProgress_le_one ((get_termina_state now epoch_end L off).seconds_remaining) L]

lemma hour_formula_range (t : ℚ) :
    0 ≤ t - 24 * (⌊t / 24⌋ : ℚ) ∧ t - 24 * (⌊t / 24⌋ : ℚ) < 24 := by
  have h1 : (⌊t / 24⌋ : ℚ) ≤ t / 24 := Int.floor_le _
  have h2 : t / 24 < ⌊t / 24⌋ + 1 := Int.lt_floor_add_one _
  constructor <;> linarith

/-- C4: for every input `(now, epochEnd, cycleLengthSeconds, debugOffset)`,
the state returned by `get_termina_state` has `day ∈ {1, 2, 3}` and
`0 ≤ hour < 24`, including when the cycle length is non-positive. -/
theorem termina_day_hour_in_range (now epoch_end L off : ℚ) :
    ((get_termina_state now epoch_end L off).day = 1 ∨
      (get_termina_state now epoch_end L off).day = 2 ∨
      (get_termina_state now epoch_end L off).day = 3) ∧
    0 ≤ (get_termina_state now epoch_end L off).hour ∧
    (get_termina_state now epoch_end L off).hour < 24 := by
  obtain ⟨ht0, ht72⟩ := get_termina_state_total_bounds now epoch_end L off
  refine ⟨?_, ?_, ?_⟩
  · rw [get_termina_state_day_eq]
    have hf0 : 0 ≤ ⌊(get_termina_state now epoch_end L off).total_hours / 24⌋ :=
      Int.le_floor.mpr (by push_cast; positivity)
    have hf4 : ⌊(get_termina_state now epoch_end L off).total_hours / 24⌋ < 4 :=
      Int.floor_lt.mpr (by push_cast; linarith)
    split_ifs with h <;> omega
  · rw [get_termina_state_hour_eq]
    exact (hour_formula_range _).1
  · rw [get_termina_state_hour_eq]
    exact (hour_formula_range _).2

/-- C5: with `epoch_end`, cycle length and debug offset fixed,
`get_termina_state` is monotone in `now`: increasing `now` never increases
`seconds_remaining` and never decreases `total_hours`. -/
theorem termina_monotone_in_now (epoch_end L off now1 now2 : ℚ) (h : now1 ≤ now2) :
    (get_termina_state now2 epoch_end L off).seconds_remaining ≤
      (get_termina_state now1 epoch_end L off).seconds_remaining ∧
    (get_termina_state now1 epoch_end L off).total_hours ≤
      (get_termina_state now2 epoch_end L off).total_hours := by
  have hsr : (get_termina_state now2 epoch_end L off).seconds_remaining ≤
      (get_termina_state now1 epoch_end L off).seconds_remaining := by
    rw [get_termina_state_sr_eq, get_termina_state_sr_eq]
    split_ifs <;> linarith
  refine ⟨hsr, ?_⟩
  rw [get_termina_state_total_eq, get_termina_state_total_eq]
  nlinarith [cycleProgress_anti (L := L) hsr]

/-- Witness for C5 at a concrete input. -/
theorem termina_monotone_in_now_witness :
    (get_termina_state 1 4320 4320 0).seconds_remaining ≤
      (get_termina_state 0 4320 4320 0).seconds_remaining ∧
    (get_termina_state 0 4320 4320 0).total_hours ≤
      (get_termina_state 1 4320 4320 0).total_hours :=
  termina_monotone_in_now 4320 4320 0 0 1 (by norm_num)

/-- C7: `get_termina_state` is total: the checked variant (whose division
fails on a zero divisor) always succeeds and agrees with it, a non-positive
cycle length forces progress 1 instead of dividing by zero, and
`seconds_remaining` is never negative. -/
theorem get_termina_state_never_fails (now epoch_end L off : ℚ) :
    get_termina_state_checked now epoch_end L off =
      some (get_termina_state now epoch_end L off) ∧
    0 ≤ (get_termina_state now epoch_end L off).seconds_remaining ∧
    (L ≤ 0 →
      cycleProgress ((get_termina_state now epoch_end L off).seconds_remaining) L = 1) := by
  refine ⟨?_, get_termina_state_sr_nonneg now epoch_end L off, ?_⟩
  · by_cases hL : L ≤ 0
    · simp [get_termina_state_checked, get_termina_state, cycleProgressChecked,
        cycleProgress, hL]
    · have hne : L ≠ 0 := by push_neg at hL; exact ne_of_gt hL
      simp [get_termina_state_checked, get_termina_state, cycleProgressChecked,
        cycleProgress, checkedDiv, hL, hne]
  · intro hL
    simp [cycleProgress, hL]

/-- Witness for C7 at a concrete input with zero cycle length. -/
theorem get_termina_state_never_fails_witness :
    get_termina_state_checked 5 7 0 0 = some (get_termina_state 5 7 0 0) ∧
    0 ≤ (get_termina_state 5 7 0 0).seconds_remaining ∧
    ((0:ℚ) ≤ 0 →
      cycleProgress ((get_termina_state 5 7 0 0).seconds_remaining) 0 = 1) :=
  get_termina_state_never_fails 5 7 0 0

/-! ## Branch behaviour of `update_clock` -/

lemma cycleProgress_eq_of_bounds {sr L : ℚ} (hL : 0 < L) (h1 : 0 ≤ sr / L)
    (h2 : sr / L ≤ 1) : cycleProgress sr L = 1 - sr / L := by
  unfold cycleProgress
  simp only [if_neg (not_le.mpr hL)]
  split_ifs with ha hb
  · linarith
  · linarith
  · rfl

lemma cycleProgress_zero (L : ℚ) : cycleProgress 0 L = 1 := by
  by_cases hL : L ≤ 0 <;> norm_num [cycleProgress, hL]

lemma reset_sr_hour_zero (now epoch_end L off : ℚ)
    (h : (get_termina_state now epoch_end L off).seconds_remaining ≤ 0) :
    (get_termina_state now epoch_end L off).seconds_remaining = 0 ∧
    (get_termina_state now epoch_end L off).hour = 0 := by
  have h0 : 0 ≤ (get_termina_state now epoch_end L off).seconds_remaining :=
    get_termina_state_sr_nonneg now epoch_end L off
  have hsr : (get_termina_state now epoch_end L off).seconds_remaining = 0 :=
    le_antisymm h h0
  have htot : (get_termina_state now epoch_end L off).total_hours = 72 := by
    rw [get_termina_state_total_eq, hsr, cycleProgress_zero]
    norm_num
  refine ⟨hsr, ?_⟩
  rw [get_termina_state_hour_eq, htot]
  norm_num

/-- Inside the final-countdown window, with a cycle length at least 4320
(both real cycle modes qualify), the integer hour is at least 19, hence
never 6 or 18. -/
lemma inWindow_hour_ge_19 (now epoch_end L off : ℚ) (hL : 4320 ≤ L)
    (h1 : 0 < (get_termina_state now epoch_end L off).seconds_remaining)
    (h2 : (get_termina_state now epoch_end L off).seconds_remaining ≤ 300) :
    19 ≤ pyInt (get_termina_state now epoch_end L off).hour := by
  have hl0 : (0:ℚ) < L := by linarith
  have hd1 : (get_termina_state now epoch_end L off).seconds_remaining / L ≤ 300 / L := by
    gcongr
  have hd2 : (300:ℚ) / L ≤ 300 / 4320 := by gcongr
  have hd0 : 0 < (get_termina_state now epoch_end L off).seconds_remaining / L :=
    div_pos h1 hl0
  have htot : (get_termina_state now epoch_end L off).total_hours =
      (1 - (get_termina_state now epoch_end L off).seconds_remaining / L) * 72 := by
    rw [get_termina_state_total_eq, cycleProgress_eq_of_bounds hl0 (by linarith)
      (by nlinarith)]
  have h67 : (67:ℚ) ≤ (get_termina_state now epoch_end L off).total_hours := by
    rw [htot]; nlinarith
  have h72 : (get_termina_state now epoch_end L off).total_hours < 72 := by
    rw [htot]; nlinarith
  have hfl : ⌊(get_termina_state now epoch_end L off).total_hours / 24⌋ = 2 := by
    rw [Int.floor_eq_iff]
    push_cast
    constructor <;> [linarith; linarith]
  have hhour : (get_termina_state now epoch_end L off).hour =
      (get_termina_state now epoch_end L off).total_hours - 48 := by
    rw [get_termina_state_hour_eq, hfl]
    push_cast
    ring
  have hhour19 : (19:ℚ) ≤ (get_termina_state now epoch_end L off).hour := by
    rw [hhour]; linarith
  unfold pyInt
  rw [if_neg (not_lt.mpr (by linarith : (0:ℚ) ≤ (get_termina_state now epoch_end L off).hour))]
  exact Int.le_floor.mpr (by push_cast; linarith)

lemma update_clock_entry (cfg : Config) (off : ℚ) (st : TerminaState) (c : CueState)
    (h1 : 0 < st.seconds_remaining) (h2 : st.seconds_remaining ≤ 300)
    (hb : c.bells_playing = false) :
    (update_clock cfg off st c).commands =
      [AudioCmd.stop, AudioCmd.start Track.bellsTrack cfg.mute_final] ∧
    (update_clock cfg off st c).state =
      { last_hour_int := c.last_hour_int, final_music_playing := false,
        bells_playing := true } := by
  have h300 : ¬ 300 < st.seconds_remaining := not_lt.mpr h2
  have h0 : ¬ st.seconds_remaining ≤ 0 := not_le.mpr h1
  simp [update_clock, h300, h0, h1, h2, hb]

lemma update_clock_stay (cfg : Config) (off : ℚ) (st : TerminaState) (c : CueState)
    (h1 : 0 < st.seconds_remaining) (h2 : st.seconds_remaining ≤ 300)
    (hb : c.bells_playing = true) :
    (update_clock cfg off st c).commands = [] ∧
    (update_clock cfg off st c).state =
      { last_hour_int := c.last_hour_int, final_music_playing := false,
        bells_playing := true } := by
  have h300 : ¬ 300 < st.seconds_remaining := not_lt.mpr h2
  have h0 : ¬ st.seconds_remaining ≤ 0 := not_le.mpr h1
  simp [update_clock, h300, h0, h1, h2, hb]

lemma update_clock_outside_bells (cfg : Config) (off : ℚ) (st : TerminaState)
    (c : CueState) (h : ¬ inWindow st) :
    (update_clock cfg off st c).state.bells_playing = false := by
  unfold inWindow at h
  push_neg at h
  by_cases h0 : st.seconds_remaining ≤ 0
  · simp [update_clock, h0]
  · push_neg at h0
    have h300 : 300 < st.seconds_remaining := h h0
    have hcond : ¬ (0 < st.seconds_remaining ∧ st.seconds_remaining ≤ 300) := by
      intro hx
      linarith [hx.2]
    simp [update_clock, hcond, not_le.mpr h0]

lemma update_clock_reset_tick (cfg : Config) (off : ℚ) (st : TerminaState)
    (c : CueState) (h0 : st.seconds_remaining ≤ 0) (hh : st.hour = 0) :
    (update_clock cfg off st c).commands = [AudioCmd.stop] ∧
    (update_clock cfg off st c).display =
      Display.dawnOfANewDay (if cfg.debug_mode then some (off, none) else none) ∧
    (update_clock cfg off st c).state.final_music_playing = false ∧
    (update_clock cfg off st c).state.bells_playing = false := by
  have h300 : ¬ 300 < st.seconds_remaining := by
    intro hx
    linarith
  have h1 : ¬ 0 < st.seconds_remaining := not_lt.mpr h0
  have hcond : ¬ (0 < st.seconds_remaining ∧ st.seconds_remaining ≤ 300) := by
    intro hx
    exact h1 hx.1
  simp [update_clock, h300, h1, hcond, h0, hh, pyInt]

lemma update_clock_chime_iff (cfg : Config) (off : ℚ) (st : TerminaState)
    (c : CueState) (h : ¬ (0 < st.seconds_remaining ∧ st.seconds_remaining ≤ 300)) :
    (emitsStart Track.hourTrack (update_clock cfg off st c) ↔
      (pyInt st.hour ≠ c.last_hour_int ∧ (pyInt st.hour = 6 ∨ pyInt st.hour = 18))) := by
  unfold emitsStart update_clock
  by_cases hc : pyInt st.hour ≠ c.last_hour_int ∧ (pyInt st.hour = 6 ∨ pyInt st.hour = 18) <;>
  by_cases h300 : 300 < st.seconds_remaining <;>
  by_cases hfn : st.day = 3 ∧ 18 ≤ st.hour ∧ c.final_music_playing = false <;>
  by_cases h0 : st.seconds_remaining ≤ 0 <;>
  simp [h, hc, h300, hfn, h0, isStartOf]

lemma update_clock_inWindow_no_chime (cfg : Config) (off : ℚ) (st : TerminaState)
    (c : CueState) (h1 : 0 < st.seconds_remaining) (h2 : st.seconds_remaining ≤ 300) :
    ¬ emitsStart Track.hourTrack (update_clock cfg off st c) := by
  by_cases hb : c.bells_playing = true
  · obtain ⟨hcmd, -⟩ := update_clock_stay cfg off st c h1 h2 hb
    unfold emitsStart
    rw [hcmd]
    simp
  · obtain ⟨hcmd, -⟩ := update_clock_entry cfg off st c h1 h2
      (by revert hb; cases c.bells_playing <;> simp)
    unfold emitsStart
    rw [hcmd]
    simp [isStartOf]

lemma update_clock_last_hour (cfg : Config) (off : ℚ) (st : TerminaState)
    (c : CueState) (h : ¬ (0 < st.seconds_remaining ∧ st.seconds_remaining ≤ 300)) :
    (update_clock cfg off st c).state.last_hour_int = pyInt st.hour := by
  unfold update_clock
  by_cases h300 : 300 < st.seconds_remaining <;>
  by_cases hfn : st.day = 3 ∧ 18 ≤ st.hour ∧ c.final_music_playing = false <;>
  by_cases h0 : st.seconds_remaining ≤ 0 <;>
  simp [h, h300, hfn, h0]

lemma update_clock_inWindow_last_hour (cfg : Config) (off : ℚ) (st : TerminaState)
    (c : CueState) (h1 : 0 < st.seconds_remaining) (h2 : st.seconds_remaining ≤ 300) :
    (update_clock cfg off st c).state.last_hour_int = c.last_hour_int := by
  by_cases hb : c.bells_playing = true
  · obtain ⟨-, hst⟩ := update_clock_stay cfg off st c h1 h2 hb
    rw [hst]
  · obtain ⟨-, hst⟩ := update_clock_entry cfg off st c h1 h2
      (by revert hb; cases c.bells_playing <;> simp)
    rw [hst]

lemma cycle_length_ge (mode : CycleMode) :
    (4320:ℚ) ≤ get_cycle_length_seconds mode := by
  cases mode <;>
    norm_num [get_cycle_length_seconds, REAL_SECONDS_72MIN, REAL_SECONDS_24HR]

lemma update_clock_same_hour_no_chime (cfg : Config) (off : ℚ) (st : TerminaState)
    (c : CueState) (h : ℤ) (hlast : c.last_hour_int = h) (hh : pyInt st.hour = h) :
    ¬ emitsStart Track.hourTrack (update_clock cfg off st c) ∧
    (update_clock cfg off st c).state.last_hour_int = h := by
  by_cases hw : 0 < st.seconds_remaining ∧ st.seconds_remaining ≤ 300
  · refine ⟨update_clock_inWindow_no_chime cfg off st c hw.1 hw.2, ?_⟩
    rw [update_clock_inWindow_last_hour cfg off st c hw.1 hw.2]
    exact hlast
  · constructor
    · rw [update_clock_chime_iff cfg off st c hw]
      rintro ⟨hne, -⟩
      exact hne (by rw [hh, hlast])
    · rw [update_clock_last_hour cfg off st c hw, hh]

lemma tickRun_no_chime_same_hour (cfg : Config) (off : ℚ) (h : ℤ) :
    ∀ (sts : List TerminaState) (c : CueState),
      c.last_hour_int = h → (∀ st ∈ sts, pyInt st.hour = h) →
      ∀ r ∈ tickRun cfg off c sts, ¬ emitsStart Track.hourTrack r := by
  intro sts
  induction sts with
  | nil =>
    intro c _ _ r hr
    simp [tickRun] at hr
  | cons st rest ih =>
    intro c hlast hall r hr
    obtain ⟨hno, hpres⟩ :=
      update_clock_same_hour_no_chime cfg off st c h hlast (hall st (by simp))
    simp only [tickRun, List.mem_cons] at hr
    rcases hr with rfl | hr
    · exact hno
    · exact ih _ hpres (fun st2 h2 => hall st2 (by simp [h2])) r hr

/-- C3: the hour chime fires on a tick exactly when the integer hour differs
from `last_hour_int` and is 6 or 18 (for states produced by
`get_termina_state` under either cycle mode), and once it has fired it does
not fire again across any run of subsequent ticks whose integer hour is
unchanged. -/
theorem hour_chime_edge_trigger (cfg : Config) (mode : CycleMode)
    (now epoch_end off : ℚ) (c : CueState) (st : TerminaState)
    (hst : st = get_termina_state now epoch_end (get_cycle_length_seconds mode) off) :
    (emitsStart Track.hourTrack (update_clock cfg off st c) ↔
      (pyInt st.hour ≠ c.last_hour_int ∧
        (pyInt st.hour = 6 ∨ pyInt st.hour = 18))) ∧
    (emitsStart Track.hourTrack (update_clock cfg off st c) →
      ∀ sts : List TerminaState, (∀ st2 ∈ sts, pyInt st2.hour = pyInt st.hour) →
        ∀ r ∈ tickRun cfg off (update_clock cfg off st c).state sts,
          ¬ emitsStart Track.hourTrack r) := by
  by_cases hw : 0 < st.seconds_remaining ∧ st.seconds_remaining ≤ 300
  · have hno := update_clock_inWindow_no_chime cfg off st c hw.1 hw.2
    have h19 : 19 ≤ pyInt st.hour := by
      subst hst
      exact inWindow_hour_ge_19 now epoch_end _ off (cycle_length_ge mode) hw.1 hw.2
    refine ⟨iff_of_false hno ?_, fun hfire => absurd hfire hno⟩
    rintro ⟨-, h6 | h18⟩ <;> omega
  · refine ⟨update_clock_chime_iff cfg off st c hw, ?_⟩
    intro hfire sts hall
    have hlast : (update_clock cfg off st c).state.last_hour_int = pyInt st.hour :=
      update_clock_last_hour cfg off st c hw
    exact tickRun_no_chime_same_hour cfg off (pyInt st.hour) sts _ hlast hall

/-- Witness for C3: the entry tick into fictional hour 6 (ShortCycle mode)
fires the chime. -/
theorem hour_chime_edge_trigger_witness :
    emitsStart Track.hourTrack
      (update_clock ⟨false, false, false, false⟩ 0
        (get_termina_state 360 4320 (get_cycle_length_seconds CycleMode.mode72min) 0)
        initCueState) := by
  have h := hour_chime_edge_trigger ⟨false, false, false, false⟩ CycleMode.mode72min
    360 4320 0 initCueState _ rfl
  refine h.1.mpr ?_
  norm_num [get_termina_state, cycleProgress, get_cycle_length_seconds,
    REAL_SECONDS_72MIN, pyInt, initCueState, Rat.floor_def, TERMINA_TOTAL_HOURS,
    TERMINA_HOURS_PER_DAY]

/-- C10: `last_hour_int` starts at `-1`, so on the very first tick the
integer hour always differs from it; consequently a clock starting at a
fictional time whose integer hour is already 6 or 18 emits the hour chime
on its first tick even though no hour crossing occurred. -/
theorem first_tick_chime_at_6_or_18 (cfg : Config) (mode : CycleMode)
    (now epoch_end off : ℚ) (st : TerminaState)
    (hst : st = get_termina_state now epoch_end (get_cycle_length_seconds mode) off)
    (h6 : pyInt st.hour = 6 ∨ pyInt st.hour = 18) :
    initCueState.last_hour_int = -1 ∧
    pyInt st.hour ≠ initCueState.last_hour_int ∧
    emitsStart Track.hourTrack (update_clock cfg off st initCueState) := by
  have hw : ¬ (0 < st.seconds_remaining ∧ st.seconds_remaining ≤ 300) := by
    intro hx
    have h19 : 19 ≤ pyInt st.hour := by
      subst hst
      exact inWindow_hour_ge_19 now epoch_end _ off (cycle_length_ge mode) hx.1 hx.2
    rcases h6 with h | h <;> omega
  have hne : pyInt st.hour ≠ initCueState.last_hour_int := by
    rcases h6 with h | h <;> simp [initCueState, h]
  exact ⟨rfl, hne, (update_clock_chime_iff cfg off st initCueState hw).mpr ⟨hne, h6⟩⟩

/-- Witness for C10: starting the ShortCycle clock at fictional hour 6. -/
theorem first_tick_chime_at_6_or_18_witness :
    initCueState.last_hour_int = -1 ∧
    pyInt (get_termina_state 360 4320
        (get_cycle_length_seconds CycleMode.mode72min) 0).hour ≠
      initCueState.last_hour_int ∧
    emitsStart Track.hourTrack
      (update_clock ⟨true, true, true, true⟩ 0
        (get_termina_state 360 4320 (get_cycle_length_seconds CycleMode.mode72min) 0)
        initCueState) :=
  first_tick_chime_at_6_or_18 ⟨true, true, true, true⟩ CycleMode.mode72min 360 4320 0 _
    rfl
    (by norm_num [get_termina_state, cycleProgress, get_cycle_length_seconds,
      REAL_SECONDS_72MIN, pyInt, Rat.floor_def, TERMINA_TOTAL_HOURS,
      TERMINA_HOURS_PER_DAY])

lemma update_clock_start_final_iff (cfg : Config) (off : ℚ) (st : TerminaState)
    (c : CueState) :
    emitsStart Track.finalTrack (update_clock cfg off st c) ↔
      (300 < st.seconds_remaining ∧ st.day = 3 ∧ 18 ≤ st.hour ∧
        c.final_music_playing = false) := by
  unfold emitsStart update_clock
  by_cases h300 : 300 < st.seconds_remaining
  · have hwin : ¬ (0 < st.seconds_remaining ∧ st.seconds_remaining ≤ 300) := by
      intro hx
      linarith [hx.2]
    have h0 : ¬ st.seconds_remaining ≤ 0 := by
      intro hx
      linarith
    by_cases hfn : st.day = 3 ∧ 18 ≤ st.hour ∧ c.final_music_playing = false <;>
    by_cases hc : pyInt st.hour ≠ c.last_hour_int ∧
        (pyInt st.hour = 6 ∨ pyInt st.hour = 18) <;>
      simp [h300, hwin, h0, hfn, hc, isStartOf]
  · by_cases hwin : 0 < st.seconds_remaining ∧ st.seconds_remaining ≤ 300
    · have h0 : ¬ st.seconds_remaining ≤ 0 := not_le.mpr hwin.1
      by_cases hb : c.bells_playing = false <;>
        simp [h300, hwin, h0, hb, isStartOf]
    · by_cases h0 : st.seconds_remaining ≤ 0 <;>
      by_cases hc : pyInt st.hour ≠ c.last_hour_int ∧
          (pyInt st.hour = 6 ∨ pyInt st.hour = 18) <;>
        simp [h300, hwin, h0, hc, isStartOf]

lemma update_clock_start_bells_iff (cfg : Config) (off : ℚ) (st : TerminaState)
    (c : CueState) :
    emitsStart Track.bellsTrack (update_clock cfg off st c) ↔
      (0 < st.seconds_remaining ∧ st.seconds_remaining ≤ 300 ∧
        c.bells_playing = false) := by
  unfold emitsStart update_clock
  by_cases h300 : 300 < st.seconds_remaining
  · have hwin : ¬ (0 < st.seconds_remaining ∧ st.seconds_remaining ≤ 300) := by
      intro hx
      linarith [hx.2]
    have h0 : ¬ st.seconds_remaining ≤ 0 := by
      intro hx
      linarith
    have hns : ¬ (st.seconds_remaining ≤ 300 ∧ c.bells_playing = false) := by
      intro hx
      linarith [hx.1]
    by_cases hfn : st.day = 3 ∧ 18 ≤ st.hour ∧ c.final_music_playing = false <;>
    by_cases hc : pyInt st.hour ≠ c.last_hour_int ∧
        (pyInt st.hour = 6 ∨ pyInt st.hour = 18) <;>
      simp [h300, hwin, h0, hfn, hc, hns, isStartOf]
  · by_cases hwin : 0 < st.seconds_remaining ∧ st.seconds_remaining ≤ 300
    · have h0 : ¬ st.seconds_remaining ≤ 0 := not_le.mpr hwin.1
      by_cases hb : c.bells_playing = false <;>
        simp [h300, hwin, hwin.1, hwin.2, h0, hb, isStartOf]
    · have hside : ¬ (0 < st.seconds_remaining ∧ st.seconds_remaining ≤ 300 ∧
          c.bells_playing = false) := by
        intro hx
        exact hwin ⟨hx.1, hx.2.1⟩
      by_cases h0 : st.seconds_remaining ≤ 0 <;>
      by_cases hc : pyInt st.hour ≠ c.last_hour_int ∧
          (pyInt st.hour = 6 ∨ pyInt st.hour = 18) <;>
        simp [h300, hwin, h0, hc, hside, isStartOf]

/-- Counterexample to C1 as stated: a reachable tick (reached from the
startup cue state in one tick) whose active state is FinalNight — not
Normal — nevertheless emits the hour-chime command, because the chime check
sits in the `else` of the countdown window, which also runs on FinalNight
ticks. -/
theorem hour_chime_on_final_night_tick :
    (update_clock ⟨false, false, false, false⟩ 0
        (get_termina_state 3900 4320 (get_cycle_length_seconds CycleMode.mode72min) 0)
        initCueState).state =
      { last_hour_int := 17, final_music_playing := false, bells_playing := false } ∧
    isFinalNightPhase (get_termina_state 3960 4320
      (get_cycle_length_seconds CycleMode.mode72min) 0) ∧
    ¬ isNormalPhase (get_termina_state 3960 4320
      (get_cycle_length_seconds CycleMode.mode72min) 0) ∧
    emitsStart Track.hourTrack
      (update_clock ⟨false, false, false, false⟩ 0
        (get_termina_state 3960 4320 (get_cycle_length_seconds CycleMode.mode72min) 0)
        { last_hour_int := 17, final_music_playing := false, bells_playing := false }) := by
  refine ⟨?_, ?_, ?_, ?_⟩ <;>
    norm_num [update_clock, get_termina_state, cycleProgress, get_cycle_length_seconds,
      REAL_SECONDS_72MIN, pyInt, initCueState, emitsStart, isStartOf,
      isFinalNightPhase, isNormalPhase, isResetPhase, isFinalCountdownPhase, inWindow,
      Rat.floor_def, TERMINA_TOTAL_HOURS, TERMINA_HOURS_PER_DAY]

/-- C1 (amended): the four cue-state conditions are mutually exclusive and
exhaustive on every tick, and the exclusive `Start` cues fire only in their
own state (`final.mp3` only in FinalNight, `bells.mp3` only in
FinalCountdown); the hour-chime command, however, can be emitted on a tick
whose active state is Normal or FinalNight (never FinalCountdown or Reset). -/
theorem cue_phases_exclusive (st : TerminaState) :
    (isResetPhase st ∨ isFinalCountdownPhase st ∨ isFinalNightPhase st ∨
      isNormalPhase st) ∧
    (isResetPhase st →
      ¬ isFinalCountdownPhase st ∧ ¬ isFinalNightPhase st ∧ ¬ isNormalPhase st) ∧
    (isFinalCountdownPhase st → ¬ isFinalNightPhase st ∧ ¬ isNormalPhase st) ∧
    (isFinalNightPhase st → ¬ isNormalPhase st) ∧
    (∀ (cfg : Config) (off : ℚ) (c : CueState),
      emitsStart Track.finalTrack (update_clock cfg off st c) →
        isFinalNightPhase st) ∧
    (∀ (cfg : Config) (off : ℚ) (c : CueState),
      emitsStart Track.bellsTrack (update_clock cfg off st c) →
        isFinalCountdownPhase st) ∧
    (reachableState st →
      ∀ (cfg : Config) (off : ℚ) (c : CueState),
        emitsStart Track.hourTrack (update_clock cfg off st c) →
          isNormalPhase st ∨ isFinalNightPhase st) := by
  refine ⟨?_, ?_, ?_, ?_, ?_, ?_, ?_⟩
  · by_cases h1 : isResetPhase st
    · exact Or.inl h1
    · by_cases h2 : isFinalCountdownPhase st
      · exact Or.inr (Or.inl h2)
      · by_cases h3 : isFinalNightPhase st
        · exact Or.inr (Or.inr (Or.inl h3))
        · exact Or.inr (Or.inr (Or.inr ⟨h1, h2, h3⟩))
  · intro h
    unfold isResetPhase at h
    refine ⟨?_, ?_, ?_⟩
    · rintro ⟨h0, -⟩
      exact absurd h (not_le.mpr h0)
    · rintro ⟨h300, -⟩
      linarith
    · rintro ⟨hn, -⟩
      exact hn h
  · rintro ⟨h0, h300⟩
    refine ⟨?_, ?_⟩
    · rintro ⟨hgt, -⟩
      linarith
    · rintro ⟨-, hn, -⟩
      exact hn ⟨h0, h300⟩
  · intro h
    rintro ⟨-, -, hn⟩
    exact hn h
  · intro cfg off c hfire
    obtain ⟨h300, hday, hhour, -⟩ :=
      (update_clock_start_final_iff cfg off st c).mp hfire
    exact ⟨h300, hday, hhour⟩
  · intro cfg off c hfire
    obtain ⟨h0, h300, -⟩ := (update_clock_start_bells_iff cfg off st c).mp hfire
    exact ⟨h0, h300⟩
  · rintro ⟨now, epoch_end, off2, mode, rfl⟩ cfg off c hfire
    by_cases hw : 0 < (get_termina_state now epoch_end (get_cycle_length_seconds mode)
        off2).seconds_remaining ∧
        (get_termina_state now epoch_end (get_cycle_length_seconds mode)
          off2).seconds_remaining ≤ 300
    · exact absurd hfire (update_clock_inWindow_no_chime cfg off _ c hw.1 hw.2)
    · obtain ⟨-, h618⟩ := (update_clock_chime_iff cfg off _ c hw).mp hfire
      by_cases h0 : (get_termina_state now epoch_end (get_cycle_length_seconds mode)
          off2).seconds_remaining ≤ 0
      · obtain ⟨-, hh⟩ := reset_sr_hour_zero now epoch_end _ off2 h0
        rw [hh] at h618
        norm_num [pyInt] at h618
      · push_neg at h0
        have h300 : 300 < (get_termina_state now epoch_end
            (get_cycle_length_seconds mode) off2).seconds_remaining := by
          by_contra hle
          exact hw ⟨h0, not_lt.mp hle⟩
        by_cases hfn : isFinalNightPhase (get_termina_state now epoch_end
            (get_cycle_length_seconds mode) off2)
        · exact Or.inr hfn
        · refine Or.inl ⟨?_, ?_, hfn⟩
          · intro hle
            exact absurd hle (not_le.mpr h0)
          · rintro ⟨-, hle⟩
            linarith

/-- Witness for C1 (amended) at a concrete FinalNight tick. -/
theorem cue_phases_exclusive_witness :
    isNormalPhase (get_termina_state 3960 4320
        (get_cycle_length_seconds CycleMode.mode72min) 0) ∨
      isFinalNightPhase (get_termina_state 3960 4320
        (get_cycle_length_seconds CycleMode.mode72min) 0) :=
  (cue_phases_exclusive _).2.2.2.2.2.2
    ⟨3960, 4320, 0, CycleMode.mode72min, rfl⟩
    ⟨false, false, false, false⟩ 0
    { last_hour_int := 17, final_music_playing := false, bells_playing := false }
    (by norm_num [update_clock, get_termina_state, cycleProgress,
      get_cycle_length_seconds, REAL_SECONDS_72MIN, pyInt, emitsStart, isStartOf,
      Rat.floor_def, TERMINA_TOTAL_HOURS, TERMINA_HOURS_PER_DAY])

lemma tickRun_stay (cfg : Config) (off : ℚ) :
    ∀ (sts : List TerminaState) (c : CueState),
      (∀ st ∈ sts, inWindow st) → c.bells_playing = true →
      ∀ r ∈ tickRun cfg off c sts, r.commands = [] := by
  intro sts
  induction sts with
  | nil =>
    intro c _ _ r hr
    simp [tickRun] at hr
  | cons st rest ih =>
    intro c hall hb r hr
    have hw : inWindow st := hall st (by simp)
    obtain ⟨hcmd, hst⟩ := update_clock_stay cfg off st c hw.1 hw.2 hb
    simp only [tickRun, List.mem_cons] at hr
    rcases hr with rfl | hr
    · exact hcmd
    · refine ih (update_clock cfg off st c).state ?_ ?_ r hr
      · intro st2 h2
        exact hall st2 (by simp [h2])
      · rw [hst]

lemma runCommands_nil {rs : List TickResult} (h : ∀ r ∈ rs, r.commands = []) :
    runCommands rs = [] := by
  induction rs with
  | nil => rfl
  | cons r rest ih =>
    have h1 : r.commands = [] := h r (by simp)
    have h2 : runCommands rest = [] := ih fun r2 hr2 => h r2 (by simp [hr2])
    simp [runCommands] at h2 ⊢
    exact ⟨h1, h2⟩

lemma runCommands_cons (r : TickResult) (rs : List TickResult) :
    runCommands (r :: rs) = r.commands ++ runCommands rs := by
  simp [runCommands]

/-- C2: entering the window `0 < secondsRemaining ≤ 300` with
`bells_playing` false (as every out-of-window tick leaves it) emits exactly
`Stop` then `Start(Bells)`, sets the flag; across any run of further
in-window ticks no other `Start(Bells)` is emitted (total count one); and a
subsequent reachable tick with `secondsRemaining = 0` emits exactly one
`Stop` and clears both flags. -/
theorem final_countdown_one_bells (cfg : Config) (off : ℚ) (c : CueState)
    (hb : c.bells_playing = false) (st0 : TerminaState) (h0 : inWindow st0)
    (sts : List TerminaState) (hsts : ∀ st ∈ sts, inWindow st)
    (stEnd : TerminaState) (hre : reachableState stEnd)
    (hend : stEnd.seconds_remaining ≤ 0) (c2 : CueState) :
    (update_clock cfg off st0 c).commands =
      [AudioCmd.stop, AudioCmd.start Track.bellsTrack cfg.mute_final] ∧
    (update_clock cfg off st0 c).state.bells_playing = true ∧
    countStart Track.bellsTrack (runCommands (tickRun cfg off c (st0 :: sts))) = 1 ∧
    (∀ (st2 : TerminaState) (c3 : CueState), ¬ inWindow st2 →
      (update_clock cfg off st2 c3).state.bells_playing = false) ∧
    (update_clock cfg off stEnd c2).commands = [AudioCmd.stop] ∧
    (update_clock cfg off stEnd c2).state.final_music_playing = false ∧
    (update_clock cfg off stEnd c2).state.bells_playing = false := by
  obtain ⟨hcmd, hstate⟩ := update_clock_entry cfg off st0 c h0.1 h0.2 hb
  have hbells : (update_clock cfg off st0 c).state.bells_playing = true := by
    rw [hstate]
  have hhour0 : stEnd.hour = 0 := by
    obtain ⟨now, epoch_end, off2, mode, rfl⟩ := hre
    exact (reset_sr_hour_zero now epoch_end _ off2 hend).2
  obtain ⟨hecmd, -, hef, heb⟩ := update_clock_reset_tick cfg off stEnd c2 hend hhour0
  refine ⟨hcmd, hbells, ?_, ?_, hecmd, hef, heb⟩
  · have hrest : runCommands (tickRun cfg off (update_clock cfg off st0 c).state sts) = [] :=
      runCommands_nil (tickRun_stay cfg off sts _ hsts hbells)
    simp only [tickRun, runCommands_cons, hrest, hcmd, List.append_nil]
    simp [countStart, isStartOf]
  · intro st2 c3 h2
    exact update_clock_outside_bells cfg off st2 c3 h2

/-- Witness for C2 on the ShortCycle scenario's countdown ticks. -/
theorem final_countdown_one_bells_witness :
    (update_clock ⟨false, false, false, false⟩ 0
        (get_termina_state 4070 4320 (get_cycle_length_seconds CycleMode.mode72min) 0)
        initCueState).commands =
      [AudioCmd.stop, AudioCmd.start Track.bellsTrack false] ∧
    (update_clock ⟨false, false, false, false⟩ 0
        (get_termina_state 4070 4320 (get_cycle_length_seconds CycleMode.mode72min) 0)
        initCueState).state.bells_playing = true ∧
    countStart Track.bellsTrack
      (runCommands (tickRun ⟨false, false, false, false⟩ 0 initCueState
        [get_termina_state 4070 4320 (get_cycle_length_seconds CycleMode.mode72min) 0,
         get_termina_state 4170 4320 (get_cycle_length_seconds CycleMode.mode72min) 0])) = 1 ∧
    (∀ (st2 : TerminaState) (c3 : CueState), ¬ inWindow st2 →
      (update_clock ⟨false, false, false, false⟩ 0 st2 c3).state.bells_playing = false) ∧
    (update_clock ⟨false, false, false, false⟩ 0
        (get_termina_state 4320 4320 (get_cycle_length_seconds CycleMode.mode72min) 0)
        { last_hour_int := 19, final_music_playing := false, bells_playing := true }).commands =
      [AudioCmd.stop] ∧
    (update_clock ⟨false, false, false, false⟩ 0
        (get_termina_state 4320 4320 (get_cycle_length_seconds CycleMode.mode72min) 0)
        { last_hour_int := 19, final_music_playing := false, bells_playing := true }).state.final_music_playing = false ∧
    (update_clock ⟨false, false, false, false⟩ 0
        (get_termina_state 4320 4320 (get_cycle_length_seconds CycleMode.mode72min) 0)
        { last_hour_int := 19, final_music_playing := false, bells_playing := true }).state.bells_playing = false :=
  final_countdown_one_bells ⟨false, false, false, false⟩ 0 initCueState rfl
    (get_termina_state 4070 4320 (get_cycle_length_seconds CycleMode.mode72min) 0)
    (by norm_num [inWindow, get_termina_state, cycleProgress, get_cycle_length_seconds,
      REAL_SECONDS_72MIN])
    [get_termina_state 4170 4320 (get_cycle_length_seconds CycleMode.mode72min) 0]
    (by
      intro st hst
      simp only [List.mem_singleton] at hst
      subst hst
      norm_num [inWindow, get_termina_state, cycleProgress, get_cycle_length_seconds,
        REAL_SECONDS_72MIN])
    (get_termina_state 4320 4320 (get_cycle_length_seconds CycleMode.mode72min) 0)
    ⟨4320, 4320, 0, CycleMode.mode72min, rfl⟩
    (by norm_num [get_termina_state, cycleProgress, get_cycle_length_seconds,
      REAL_SECONDS_72MIN])
    { last_hour_int := 19, final_music_playing := false, bells_playing := true }


lemma cycleProgress_full {L : ℚ} (hL : 0 < L) : cycleProgress L L = 0 := by
  unfold cycleProgress
  rw [if_neg (not_le.mpr hL), div_self (ne_of_gt hL)]
  norm_num

lemma sr_eval (now epoch_end L off v : ℚ) (h : epoch_end - (now + off) = v)
    (hv : 0 ≤ v) :
    (get_termina_state now epoch_end L off).seconds_remaining = v := by
  rw [get_termina_state_sr_eq, h, if_neg (not_lt.mpr hv)]

/-- C6: point evaluations of the time mapper.  For any positive cycle
length, at `now = epochEnd - cycleLength` the state is day 1, hour 0,
progress 0 (zero total hours); at `now = epochEnd` it is
`secondsRemaining = 0`, day 3, hour below 24.  In the ShortCycle scenario
(`lengthSeconds = 4320`, `epochEnd = T0 + 4320`): day 1 hour 0 at `T0`;
day 2 hour 12, 36 total hours at `T0 + 2160`; at `T0 + 4070` (250 s
remaining) the FinalCountdown state is entered with exactly one
`Start(Bells)` emitted and the flag set; at `T0 + 4320` the Reset state
holds, exactly `Stop` is emitted and the end-of-cycle text is displayed. -/
theorem termina_point_evaluations (epoch_end L T0 : ℚ) (hL : 0 < L)
    (cfg : Config) (c : CueState) (hcb : c.bells_playing = false) (c2 : CueState) :
    (cycleProgress L L = 0 ∧
      (get_termina_state (epoch_end - L) epoch_end L 0).seconds_remaining = L ∧
      (get_termina_state (epoch_end - L) epoch_end L 0).total_hours = 0 ∧
      (get_termina_state (epoch_end - L) epoch_end L 0).day = 1 ∧
      (get_termina_state (epoch_end - L) epoch_end L 0).hour = 0) ∧
    ((get_termina_state epoch_end epoch_end L 0).seconds_remaining = 0 ∧
      (get_termina_state epoch_end epoch_end L 0).day = 3 ∧
      (get_termina_state epoch_end epoch_end L 0).hour < 24) ∧
    ((get_termina_state T0 (T0 + 4320) 4320 0).day = 1 ∧
      (get_termina_state T0 (T0 + 4320) 4320 0).hour = 0) ∧
    ((get_termina_state (T0 + 2160) (T0 + 4320) 4320 0).day = 2 ∧
      (get_termina_state (T0 + 2160) (T0 + 4320) 4320 0).hour = 12 ∧
      (get_termina_state (T0 + 2160) (T0 + 4320) 4320 0).total_hours = 36) ∧
    ((get_termina_state (T0 + 4070) (T0 + 4320) 4320 0).seconds_remaining = 250 ∧
      isFinalCountdownPhase (get_termina_state (T0 + 4070) (T0 + 4320) 4320 0) ∧
      countStart Track.bellsTrack
        (update_clock cfg 0 (get_termina_state (T0 + 4070) (T0 + 4320) 4320 0)
          c).commands = 1 ∧
      (update_clock cfg 0 (get_termina_state (T0 + 4070) (T0 + 4320) 4320 0)
        c).state.bells_playing = true) ∧
    (isResetPhase (get_termina_state (T0 + 4320) (T0 + 4320) 4320 0) ∧
      (update_clock cfg 0 (get_termina_state (T0 + 4320) (T0 + 4320) 4320 0)
        c2).commands = [AudioCmd.stop] ∧
      ∃ d, (update_clock cfg 0 (get_termina_state (T0 + 4320) (T0 + 4320) 4320 0)
        c2).display = Display.dawnOfANewDay d) := by
  have hprog := cycleProgress_full hL
  refine ⟨?_, ?_, ?_, ?_, ?_, ?_⟩
  · have hsr : (get_termina_state (epoch_end - L) epoch_end L 0).seconds_remaining = L :=
      sr_eval _ _ _ _ _ (by ring) hL.le
    have htot : (get_termina_state (epoch_end - L) epoch_end L 0).total_hours = 0 := by
      rw [get_termina_state_total_eq, hsr, hprog]
      ring
    refine ⟨hprog, hsr, htot, ?_, ?_⟩
    · rw [get_termina_state_day_eq, htot]
      norm_num
    · rw [get_termina_state_hour_eq, htot]
      norm_num
  · have hsr : (get_termina_state epoch_end epoch_end L 0).seconds_remaining = 0 :=
      sr_eval _ _ _ _ _ (by ring) le_rfl
    have htot : (get_termina_state epoch_end epoch_end L 0).total_hours = 72 := by
      rw [get_termina_state_total_eq, hsr, cycleProgress_zero]
      ring
    refine ⟨hsr, ?_, ?_⟩
    · rw [get_termina_state_day_eq, htot]
      norm_num [Rat.floor_def]
    · rw [get_termina_state_hour_eq, htot]
      norm_num [Rat.floor_def]
  · have hsr : (get_termina_state T0 (T0 + 4320) 4320 0).seconds_remaining = 4320 :=
      sr_eval _ _ _ _ _ (by ring) (by norm_num)
    have htot : (get_termina_state T0 (T0 + 4320) 4320 0).total_hours = 0 := by
      rw [get_termina_state_total_eq, hsr, cycleProgress_full (by norm_num : (0:ℚ) < 4320)]
      ring
    refine ⟨?_, ?_⟩
    · rw [get_termina_state_day_eq, htot]
      norm_num
    · rw [get_termina_state_hour_eq, htot]
      norm_num
  · have hsr : (get_termina_state (T0 + 2160) (T0 + 4320) 4320 0).seconds_remaining = 2160 :=
      sr_eval _ _ _ _ _ (by ring) (by norm_num)
    have hp2 : cycleProgress 2160 4320 = 1 / 2 := by
      norm_num [cycleProgress]
    have htot : (get_termina_state (T0 + 2160) (T0 + 4320) 4320 0).total_hours = 36 := by
      rw [get_termina_state_total_eq, hsr, hp2]
      ring
    refine ⟨?_, ?_, htot⟩
    · rw [get_termina_state_day_eq, htot]
      norm_num [Rat.floor_def]
    · rw [get_termina_state_hour_eq, htot]
      norm_num [Rat.floor_def]
  · have hsr : (get_termina_state (T0 + 4070) (T0 + 4320) 4320 0).seconds_remaining = 250 :=
      sr_eval _ _ _ _ _ (by ring) (by norm_num)
    have hwin1 : (0:ℚ) < (get_termina_state (T0 + 4070) (T0 + 4320) 4320 0).seconds_remaining := by
      rw [hsr]
      norm_num
    have hwin2 : (get_termina_state (T0 + 4070) (T0 + 4320) 4320 0).seconds_remaining ≤ 300 := by
      rw [hsr]
      norm_num
    obtain ⟨hcmd, hstate⟩ := update_clock_entry cfg 0 _ c hwin1 hwin2 hcb
    refine ⟨hsr, ⟨hwin1, hwin2⟩, ?_, ?_⟩
    · rw [hcmd]
      simp [countStart, isStartOf]
    · rw [hstate]
  · have hsr : (get_termina_state (T0 + 4320) (T0 + 4320) 4320 0).seconds_remaining = 0 :=
      sr_eval _ _ _ _ _ (by ring) le_rfl
    have hle : (get_termina_state (T0 + 4320) (T0 + 4320) 4320 0).seconds_remaining ≤ 0 := by
      rw [hsr]
    have hh : (get_termina_state (T0 + 4320) (T0 + 4320) 4320 0).hour = 0 :=
      (reset_sr_hour_zero (T0 + 4320) (T0 + 4320) 4320 0 hle).2
    obtain ⟨hcmd, hdisp, -, -⟩ := update_clock_reset_tick cfg 0 _ c2 hle hh
    exact ⟨hle, hcmd, ⟨_, hdisp⟩⟩

/-- Witness for C6 at concrete values. -/
theorem termina_point_evaluations_witness :
    cycleProgress 4320 4320 = 0 ∧
    (get_termina_state (4320 - 4320) 4320 4320 0).seconds_remaining = 4320 ∧
    (get_termina_state (4320 - 4320) 4320 4320 0).total_hours = 0 ∧
    (get_termina_state (4320 - 4320) 4320 4320 0).day = 1 ∧
    (get_termina_state (4320 - 4320) 4320 4320 0).hour = 0 :=
  (termina_point_evaluations 4320 4320 0 (by norm_num)
    ⟨false, false, false, false⟩ initCueState rfl initCueState).1

/-- C9: the mute flags cannot influence the cue state machine or the
display: two ticks identical except for `mute_hour`/`mute_final` produce
the same new cue state, the same display text, and the same commands up to
the mute bit carried inside each `Start` (which only suppresses playback
inside `play_sound`). -/
theorem mute_noninterference (mh1 mf1 mh2 mf2 ss dm : Bool) (off : ℚ)
    (st : TerminaState) (c : CueState) :
    (update_clock ⟨mh1, mf1, ss, dm⟩ off st c).state =
      (update_clock ⟨mh2, mf2, ss, dm⟩ off st c).state ∧
    (update_clock ⟨mh1, mf1, ss, dm⟩ off st c).display =
      (update_clock ⟨mh2, mf2, ss, dm⟩ off st c).display ∧
    (update_clock ⟨mh1, mf1, ss, dm⟩ off st c).commands.map stripMute =
      (update_clock ⟨mh2, mf2, ss, dm⟩ off st c).commands.map stripMute := by
  unfold update_clock
  by_cases h300 : 300 < st.seconds_remaining <;>
  by_cases hfn : st.day = 3 ∧ 18 ≤ st.hour ∧ c.final_music_playing = false <;>
  by_cases hw : 0 < st.seconds_remaining ∧ st.seconds_remaining ≤ 300 <;>
  by_cases hb : c.bells_playing = false <;>
  by_cases hc : pyInt st.hour ≠ c.last_hour_int ∧
      (pyInt st.hour = 6 ∨ pyInt st.hour = 18) <;>
  by_cases h0 : st.seconds_remaining ≤ 0 <;>
    simp [h300, hfn, hw, hb, hc, h0, stripMute]

lemma applyOffsetField_epoch (u : String) (s : Settings) :
    (applyOffsetField u s).1.epoch_end_timestamp = s.epoch_end_timestamp := by
  unfold applyOffsetField
  split
  · rfl
  · split <;> rfl

lemma applyEpochField_offset (t : String) (now_ts midnight_ts : ℚ) (s : Settings) :
    (applyEpochField t now_ts midnight_ts s).1.debug_time_offset =
      s.debug_time_offset := by
  unfold applyEpochField
  split
  · rfl
  · split <;> rfl

lemma save_settings_fst (form : FormValues) (now_ts midnight_ts : ℚ) (s : Settings) :
    (save_settings form now_ts midnight_ts s).1 =
      (applyOffsetField (String.mk (pyStrip form.debug_offset_entry.toList))
        ((applyEpochField (String.mk (pyStrip form.epoch_entry.toList)) now_ts
          midnight_ts
          { s with
            mute_hour := form.hour_var
            mute_final := form.final_var
            debug_mode := form.debug_var
            show_seconds := form.seconds_var
            dark_mode := form.dark_var
            cycle_mode := form.cycle_var }).1)).1 := rfl

lemma save_settings_snd (form : FormValues) (now_ts midnight_ts : ℚ) (s : Settings) :
    (save_settings form now_ts midnight_ts s).2 =
      (applyEpochField (String.mk (pyStrip form.epoch_entry.toList)) now_ts midnight_ts
        { s with
          mute_hour := form.hour_var
          mute_final := form.final_var
          debug_mode := form.debug_var
          show_seconds := form.seconds_var
          dark_mode := form.dark_var
          cycle_mode := form.cycle_var }).2 ++
      (applyOffsetField (String.mk (pyStrip form.debug_offset_entry.toList))
        ((applyEpochField (String.mk (pyStrip form.epoch_entry.toList)) now_ts
          midnight_ts
          { s with
            mute_hour := form.hour_var
            mute_final := form.final_var
            debug_mode := form.debug_var
            show_seconds := form.seconds_var
            dark_mode := form.dark_var
            cycle_mode := form.cycle_var }).1)).2 := rfl

/-- C8: a malformed time-of-day string leaves the epoch anchor unchanged
and reports the error, and a malformed debug-offset string leaves the
debug offset unchanged and reports the error; neither touches any other
state. -/
theorem save_settings_parse_error_safe (form : FormValues) (now_ts midnight_ts : ℚ)
    (s : Settings) :
    (String.mk (pyStrip form.epoch_entry.toList) ≠ "" →
      parseTimeOfDay (String.mk (pyStrip form.epoch_entry.toList)) = none →
      (save_settings form now_ts midnight_ts s).1.epoch_end_timestamp =
        s.epoch_end_timestamp ∧
      LogEvent.epochParseError (String.mk (pyStrip form.epoch_entry.toList)) ∈
        (save_settings form now_ts midnight_ts s).2) ∧
    (String.mk (pyStrip form.debug_offset_entry.toList) ≠ "" →
      parsePyFloatChars (pyStrip form.debug_offset_entry.toList) = none →
      (save_settings form now_ts midnight_ts s).1.debug_time_offset =
        s.debug_time_offset ∧
      LogEvent.offsetParseError (String.mk (pyStrip form.debug_offset_entry.toList)) ∈
        (save_settings form now_ts midnight_ts s).2) := by
  constructor
  · intro ht hp
    have he : applyEpochField (String.mk (pyStrip form.epoch_entry.toList)) now_ts
        midnight_ts
        { s with
          mute_hour := form.hour_var
          mute_final := form.final_var
          debug_mode := form.debug_var
          show_seconds := form.seconds_var
          dark_mode := form.dark_var
          cycle_mode := form.cycle_var } =
        ({ s with
          mute_hour := form.hour_var
          mute_final := form.final_var
          debug_mode := form.debug_var
          show_seconds := form.seconds_var
          dark_mode := form.dark_var
          cycle_mode := form.cycle_var },
         [LogEvent.epochParseError (String.mk (pyStrip form.epoch_entry.toList))]) := by
      unfold applyEpochField
      rw [if_neg ht, hp]
    refine ⟨?_, ?_⟩
    · rw [save_settings_fst, he]
      exact applyOffsetField_epoch _ _
    · rw [save_settings_snd, he]
      simp
  · intro hu hp
    have hlist : (String.mk (pyStrip form.debug_offset_entry.toList)).toList =
        pyStrip form.debug_offset_entry.toList := rfl
    have ho : ∀ s2 : Settings,
        applyOffsetField (String.mk (pyStrip form.debug_offset_entry.toList)) s2 =
          (s2, [LogEvent.offsetParseError
            (String.mk (pyStrip form.debug_offset_entry.toList))]) := by
      intro s2
      unfold applyOffsetField
      rw [if_neg hu, hlist, hp]
    refine ⟨?_, ?_⟩
    · rw [save_settings_fst, ho]
      exact applyEpochField_offset _ _ _ _
    · rw [save_settings_snd, ho]
      simp

/-- Witness for C8: the malformed strings `"ab:cd"` and `"z"`. -/
theorem save_settings_parse_error_safe_witness :
    (save_settings
        { hour_var := false, final_var := false, debug_var := false,
          seconds_var := false, dark_var := false, cycle_var := CycleMode.mode72min,
          epoch_entry := "ab:cd", debug_offset_entry := "z" } 0 0
        { cycle_mode := CycleMode.mode72min, mute_hour := false, mute_final := false,
          debug_mode := false, show_seconds := false, dark_mode := false,
          epoch_end_timestamp := 4320, debug_time_offset := 0 }).1.epoch_end_timestamp =
      (4320 : ℚ) ∧
    (save_settings
        { hour_var := false, final_var := false, debug_var := false,
          seconds_var := false, dark_var := false, cycle_var := CycleMode.mode72min,
          epoch_entry := "ab:cd", debug_offset_entry := "z" } 0 0
        { cycle_mode := CycleMode.mode72min, mute_hour := false, mute_final := false,
          debug_mode := false, show_seconds := false, dark_mode := false,
          epoch_end_timestamp := 4320, debug_time_offset := 0 }).1.debug_time_offset =
      (0 : ℚ) ∧
    LogEvent.epochParseError "ab:cd" ∈
      (save_settings
        { hour_var := false, final_var := false, debug_var := false,
          seconds_var := false, dark_var := false, cycle_var := CycleMode.mode72min,
          epoch_entry := "ab:cd", debug_offset_entry := "z" } 0 0
        { cycle_mode := CycleMode.mode72min, mute_hour := false, mute_final := false,
          debug_mode := false, show_seconds := false, dark_mode := false,
          epoch_end_timestamp := 4320, debug_time_offset := 0 }).2 ∧
    LogEvent.offsetParseError "z" ∈
      (save_settings
        { hour_var := false, final_var := false, debug_var := false,
          seconds_var := false, dark_var := false, cycle_var := CycleMode.mode72min,
          epoch_entry := "ab:cd", debug_offset_entry := "z" } 0 0
        { cycle_mode := CycleMode.mode72min, mute_hour := false, mute_final := false,
          debug_mode := false, show_seconds := false, dark_mode := false,
          epoch_end_timestamp := 4320, debug_time_offset := 0 }).2 := by
  have h := save_settings_parse_error_safe
    { hour_var := false, final_var := false, debug_var := false,
      seconds_var := false, dark_var := false, cycle_var := CycleMode.mode72min,
      epoch_entry := "ab:cd", debug_offset_entry := "z" } 0 0
    { cycle_mode := CycleMode.mode72min, mute_hour := false, mute_final := false,
      debug_mode := false, show_seconds := false, dark_mode := false,
      epoch_end_timestamp := 4320, debug_time_offset := 0 }
  have hstrip1 : String.mk (pyStrip ("ab:cd".toList)) = "ab:cd" := by decide
  have hstrip2 : String.mk (pyStrip ("z".toList)) = "z" := by decide
  obtain ⟨h1, h2⟩ := h
  rw [hstrip1] at h1
  rw [hstrip2] at h2
  obtain ⟨ha, hb⟩ := h1 (by decide) (by decide)
  obtain ⟨hc, hd⟩ := h2 (by decide) (by decide)
  exact ⟨ha, hc, hb, hd⟩
